import Mathlib

/-!
Verification development for the PoseLab capture-intake and orchestration
gateway.  The definitions below are shallow embeddings of the Python source:
pose-math functions (`quat_to_rotm`, `rotation_matrix_to_quaternion`,
`read_intrinsics_txt`), the per-backend result normalizers inside each
`estimate_pose`, and the pipeline orchestrator `run` loop.  Machine floats
are modelled as real numbers (exact arithmetic); Python exceptions are
modelled with `Option`/`Except`.
-/

open scoped Classical

/-- A quaternion in (x, y, z, w) component order, as used throughout the
repository. -/
structure Quat where
  x : ℝ
  y : ℝ
  z : ℝ
  w : ℝ

/-- A 3x3 matrix of reals, row-major fields, mirroring a numpy `(3,3)` array. -/
structure Mat3 where
  m00 : ℝ
  m01 : ℝ
  m02 : ℝ
  m10 : ℝ
  m11 : ℝ
  m12 : ℝ
  m20 : ℝ
  m21 : ℝ
  m22 : ℝ

/-- Row-major flattening of a 3x3 matrix, as produced by `R.flatten().tolist()`. -/
def Mat3.toList (R : Mat3) : List ℝ :=
  [R.m00, R.m01, R.m02, R.m10, R.m11, R.m12, R.m20, R.m21, R.m22]

/-- Embedding of `quat_to_rotm` (MegaPose/websocket_server.py lines 80-94 and
OVE6D/display_result.py lines 42-56): normalize the quaternion by its norm,
then expand the standard bilinear terms into a row-major 9-element list.
Python's `x/n` raises `ZeroDivisionError` when the norm `n` is zero; that is
modelled as `none`. -/
noncomputable def quat_to_rotm (q : Quat) : Option (List ℝ) :=
  let n := Real.sqrt (q.x * q.x + q.y * q.y + q.z * q.z + q.w * q.w)
  if n = 0 then none
  else
    let x := q.x / n
    let y := q.y / n
    let z := q.z / n
    let w := q.w / n
    some [1 - 2 * (y * y + z * z), 2 * (x * y - w * z), 2 * (x * z + w * y),
          2 * (x * y + w * z), 1 - 2 * (x * x + z * z), 2 * (y * z - w * x),
          2 * (x * z - w * y), 2 * (y * z + w * x), 1 - 2 * (x * x + y * y)]

/-- Embedding of `rotation_matrix_to_quaternion` (GigaPose/websocket.py lines
59-93; identical copies in the OVE6D and MegaPose servers): Shepperd's
trace-based branch selection producing an (x, y, z, w) quaternion. -/
noncomputable def rotation_matrix_to_quaternion (R : Mat3) : Quat :=
  let t := R.m00 + R.m11 + R.m22
  if t > 0 then
    let s := 0.5 / Real.sqrt (t + 1)
    ⟨(R.m21 - R.m12) * s, (R.m02 - R.m20) * s, (R.m10 - R.m01) * s, 0.25 / s⟩
  else if R.m00 > R.m11 ∧ R.m00 > R.m22 then
    let s := 2 * Real.sqrt (1 + R.m00 - R.m11 - R.m22)
    ⟨0.25 * s, (R.m01 + R.m10) / s, (R.m02 + R.m20) / s, (R.m21 - R.m12) / s⟩
  else if R.m11 > R.m22 then
    let s := 2 * Real.sqrt (1 + R.m11 - R.m00 - R.m22)
    ⟨(R.m01 + R.m10) / s, 0.25 * s, (R.m12 + R.m21) / s, (R.m02 - R.m20) / s⟩
  else
    let s := 2 * Real.sqrt (1 + R.m22 - R.m00 - R.m11)
    ⟨(R.m02 + R.m20) / s, (R.m12 + R.m21) / s, 0.25 * s, (R.m10 - R.m01) / s⟩

/-- A matrix is a valid rotation matrix when it is the image of a unit
quaternion under the (normalizing) quaternion expansion; this set is exactly
SO(3). -/
def IsRotationMatrix (R : Mat3) : Prop :=
  ∃ q : Quat, q.x * q.x + q.y * q.y + q.z * q.z + q.w * q.w = 1 ∧
    quat_to_rotm q = some R.toList

/-- A 4x4 pose matrix of reals, row-major fields, mirroring a numpy `(4,4)`
array as stored in the GigaPose `.npz` predictions. -/
structure Mat4 where
  a00 : ℝ
  a01 : ℝ
  a02 : ℝ
  a03 : ℝ
  a10 : ℝ
  a11 : ℝ
  a12 : ℝ
  a13 : ℝ
  a20 : ℝ
  a21 : ℝ
  a22 : ℝ
  a23 : ℝ
  a30 : ℝ
  a31 : ℝ
  a32 : ℝ
  a33 : ℝ

/-- Embedding of `best_mat[:3, 3].tolist()`: the translation column of a 4x4 pose matrix. -/
def Mat4.translation (m : Mat4) : List ℝ := [m.a03, m.a13, m.a23]

/-- Embedding of `best_mat[:3, :3].flatten().tolist()`: the row-major rotation submatrix of
a 4x4 pose matrix. -/
def Mat4.rotationFlat (m : Mat4) : List ℝ :=
  [m.a00, m.a01, m.a02, m.a10, m.a11, m.a12, m.a20, m.a21, m.a22]

/-- The outbound session reply `{"position": ..., "rotation": ...}`.  Both
fields are JSON arrays of numbers, so they are modelled as lists; the length
of `rotation` is the reply's rotation shape (4 = quaternion, 9 = row-major
matrix). -/
structure Reply where
  position : List ℝ
  rotation : List ℝ

/-- The fallback reply `{"position": [0,0,0], "rotation": [0,0,0,1]}` used by
the servers on pipeline failure and most other failure paths. -/
def fallbackQuatReply : Reply := ⟨[0, 0, 0], [0, 0, 0, 1]⟩

/-- Helper for `np.argmax`: scan the remaining scores, keeping the index of
the best score seen so far; a later score replaces the best only when it is
strictly greater, so the first occurrence of the maximum wins. -/
noncomputable def argmaxAux : List ℝ → ℕ → ℕ → ℝ → ℕ
  | [], _, best, _ => best
  | v :: rest, idx, best, bestVal =>
      if bestVal < v then argmaxAux rest (idx + 1) idx v
      else argmaxAux rest (idx + 1) best bestVal

/-- Embedding of `np.argmax` on a 1-D score array: index of the first maximal
element; `np.argmax` raises `ValueError` on an empty array, modelled as
`none`. -/
noncomputable def argmaxIdx : List ℝ → Option ℕ
  | [] => none
  | v :: rest => some (argmaxAux rest 1 0 v)

/-- The GigaPose result artifact: `data["poses"][0]` (an array of 4x4 pose
matrices) and `data["scores"][0]` (the parallel score array) from the
`.npz` prediction file. -/
structure GPData where
  poses : List Mat4
  scores : List ℝ

/-- Embedding of the GigaPose `estimate_pose` reply logic
(GigaPose/websocket.py lines 117-161).  `pipelineOk` is whether the
`subprocess.run(cmd, check=True)` invocation succeeded, `npz` the result
artifact (`none` = the `.npz` file is missing).  Unhandled Python exceptions
(here: `np.argmax` on an empty score array, out-of-range hypothesis index)
are modelled as `Except.error`. -/
noncomputable def gp_estimate_pose (pipelineOk : Bool) (npz : Option GPData) :
    Except Unit Reply :=
  if !pipelineOk then .ok fallbackQuatReply
  else
    match npz with
    | none => .ok fallbackQuatReply
    | some data =>
      match argmaxIdx data.scores with
      | none => .error ()
      | some bestIdx =>
        match data.poses.get? bestIdx with
        | none => .error ()
        | some bestMat => .ok ⟨bestMat.translation, bestMat.rotationFlat⟩

/-- One row of the OVE6D `predictions.csv` artifact.  The source parses the
whitespace-separated `R` and `t` fields with `float()`; a field whose tokens
all parse is modelled as `some` of the parsed values, a field with an
unparseable token as `none` (Python raises `ValueError` there). -/
structure OVRow where
  Rvals : Option (List ℝ)
  tvals : Option (List ℝ)

/-- Embedding of the OVE6D `estimate_pose` reply logic
(OVE6D/websocket_server.py lines 87-119): on pipeline failure reply with the
quaternion fallback, on a missing CSV reply with a nine-zero rotation, on an
empty CSV reply with the quaternion fallback, otherwise echo the first row's
parsed `R` and `t` values (an unparseable row raises, modelled as
`Except.error`). -/
def ov_estimate_pose (pipelineOk : Bool) (csv : Option (List OVRow)) :
    Except Unit Reply :=
  if !pipelineOk then .ok fallbackQuatReply
  else
    match csv with
    | none => .ok ⟨[0, 0, 0], [0, 0, 0, 0, 0, 0, 0, 0, 0]⟩
    | some [] => .ok fallbackQuatReply
    | some (row :: _) =>
      match row.Rvals, row.tvals with
      | some rv, some tv => .ok ⟨tv, rv⟩
      | _, _ => .error ()

/-- One record of the MegaPose `object_data.json` artifact: a `label` and the
`TWO` field, a list whose first element is the quaternion and second the
translation. -/
structure MPEntry where
  label : String
  two : List (List ℝ)

/-- Embedding of the MegaPose `estimate_pose` reply logic
(MegaPose/websocket_server.py lines 96-144).  The lookup scans for the first
record whose label is the fixed string "barbecue-sauce"; the session's
`object_type` is never consulted.  A missing `TWO` element raises
(`Except.error`), a wrong-shaped `TWO` yields the fallback, and the matched
quaternion is expanded with `quat_to_rotm` (a zero-norm quaternion raises). -/
noncomputable def mp_estimate_pose (pipelineOk : Bool)
    (file : Option (List MPEntry)) (object_type : String) : Except Unit Reply :=
  if !pipelineOk then .ok fallbackQuatReply
  else
    match file with
    | none => .ok fallbackQuatReply
    | some data =>
      match data.find? (fun d => d.label == "barbecue-sauce") with
      | none => .ok fallbackQuatReply
      | some entry =>
        match entry.two.get? 0, entry.two.get? 1 with
        | some quat, some trans0 =>
          let trans := trans0.map (fun v => v * 1000)
          match quat, trans with
          | [qx, qy, qz, qw], [t0, t1, t2] =>
            match quat_to_rotm ⟨qx, qy, qz, qw⟩ with
            | some rotMat => .ok ⟨[t0, t1, t2], rotMat⟩
            | none => .error ()
          | _, _ => .ok fallbackQuatReply
        | _, _ => .error ()

/-- Embedding of `t.replace(',', '.')` on a single token: every comma becomes a dot. -/
def commaToDot (s : String) : String :=
  String.mk (s.data.map (fun c => if c = ',' then '.' else c))

/-- Helper for Python `text.split()`: walk the characters, accumulating the
current token (in reverse) and emitting it at each whitespace run. -/
def splitWsAux : List Char → List Char → List String
  | [], acc => if acc.isEmpty then [] else [String.mk acc.reverse]
  | c :: rest, acc =>
    if c.isWhitespace then
      if acc.isEmpty then splitWsAux rest []
      else String.mk acc.reverse :: splitWsAux rest []
    else splitWsAux rest (c :: acc)

/-- Python `text.split()` with no separator: split on runs of whitespace and
drop empty pieces. -/
def tokensOf (s : String) : List String :=
  splitWsAux s.data []

/-- Whether every character of the list is an ASCII digit. -/
def allDigits (cs : List Char) : Bool :=
  cs.all Char.isDigit

/-- Value of a digit string, most significant first. -/
def natOfDigits (cs : List Char) : ℕ :=
  cs.foldl (fun acc c => acc * 10 + (c.toNat - 48)) 0

/-- The syntactic pieces of a plain decimal float literal: sign, integer-part
value, fraction-part value and fraction length. -/
structure FloatTok where
  neg : Bool
  ip : ℕ
  fp : ℕ
  fl : ℕ
deriving DecidableEq, Repr

/-- Magnitude part of Python `float()` restricted to plain decimal notation:
digits with at most one decimal point and at least one digit overall. -/
def pyFloatParseMag (cs : List Char) (neg : Bool) : Option FloatTok :=
  match cs.splitOn '.' with
  | [a] => if a ≠ [] ∧ allDigits a then some ⟨neg, natOfDigits a, 0, 0⟩ else none
  | [a, b] =>
      if (a ≠ [] ∨ b ≠ []) ∧ allDigits a ∧ allDigits b then
        some ⟨neg, natOfDigits a, natOfDigits b, b.length⟩
      else none
  | _ => none

/-- Syntactic parse of a Python `float()` decimal token: optional sign then
the decimal magnitude; `none` models the `ValueError` raised for malformed
tokens. -/
def pyFloatParse (s : String) : Option FloatTok :=
  match s.data with
  | '-' :: rest => pyFloatParseMag rest true
  | '+' :: rest => pyFloatParseMag rest false
  | cs => pyFloatParseMag cs false

/-- Numeric value of a parsed decimal float token. -/
def FloatTok.val (t : FloatTok) : ℚ :=
  (if t.neg then -1 else 1) * ((t.ip : ℚ) + (t.fp : ℚ) / 10 ^ t.fl)

/-- Python `float(token)` on decimal tokens: parse, then interpret. -/
def pyFloat (s : String) : Option ℚ :=
  (pyFloatParse s).map FloatTok.val

/-- Embedding of `np.array(vals, dtype=float)`: parse every token, failing on the first
malformed one. -/
def parseAll : List String → Option (List ℚ)
  | [] => some []
  | t :: rest =>
    match pyFloat t, parseAll rest with
    | some v, some vs => some (v :: vs)
    | _, _ => none

/-- Embedding of `.reshape(3, 3)`: succeeds exactly on 9 values, row-major; `none` models
the `ValueError` numpy raises for any other count. -/
def reshape3x3 (fs : List ℚ) : Option (List (List ℚ)) :=
  match fs with
  | [f0, f1, f2, f3, f4, f5, f6, f7, f8] =>
      some [[f0, f1, f2], [f3, f4, f5], [f6, f7, f8]]
  | _ => none

/-- The two `ValueError` sites of `read_intrinsics_txt`: a malformed float
token, or a token count other than nine. -/
inductive IntrinsicsError where
  | badFloat
  | badShape
deriving DecidableEq, Repr

/-- Embedding of `read_intrinsics_txt` (OVE6D/convert_to_bopm.py lines 14-19,
FoundationPose/pipeline.py lines 49-54): split the text on whitespace,
replace commas by dots token-by-token, parse the tokens as floats and
reshape them row-major into a 3x3 matrix. -/
def read_intrinsics_txt (text : String) : Except IntrinsicsError (List (List ℚ)) :=
  let vals := (tokensOf text).map commaToDot
  match parseAll vals with
  | none => .error .badFloat
  | some fs =>
    match reshape3x3 fs with
    | none => .error .badShape
    | some K => .ok K

/-- A pipeline stage: the name of the external command and the exit code its
invocation returns. -/
structure Stage where
  name : String
  exit : Int
deriving DecidableEq, Repr

/-- Outcome of a pipeline run: either all stages succeeded, or some stage
exited non-zero; `invoked` lists the commands actually invoked, in order. -/
inductive PipelineResult where
  | succeeded (invoked : List String)
  | failed (invoked : List String) (stage : String) (code : Int)
deriving DecidableEq, Repr

/-- Embedding of the orchestrator loop built from `run` (GigaPose/pipeline.py
lines 22-27, FoundationPose/pipeline.py lines 12-17): invoke each stage in
order; on a non-zero exit code, `run` prints the failing command and calls
`sys.exit(returncode)`, so the run stops with that stage's name and exit
code and no later stage is invoked. -/
def runPipeline : List Stage → PipelineResult
  | [] => .succeeded []
  | s :: rest =>
    if s.exit = 0 then
      match runPipeline rest with
      | .succeeded inv => .succeeded (s.name :: inv)
      | .failed inv st c => .failed (s.name :: inv) st c
    else .failed [s.name] s.name s.exit

/-- argparse semantics of a `store_true` option with an explicit `default`
keyword: the parsed value is `True` when the flag is present on the command
line, and the declared default otherwise.  No declared option can store
`False`. -/
def parseStoreTrue (dflt : Bool) (present : Bool) : Bool :=
  if present then true else dflt

/-- The `--reuse_templates` option of GigaPose/pipeline.py lines 70-75,
declared with `action="store_true"` and `default=True`. -/
def reuseTemplatesParsed (present : Bool) : Bool :=
  parseStoreTrue true present

/-- The two template-preparation branches of GigaPose/pipeline.py `main`
(lines 129-202): copy precomputed assets from the raw cache, or render
templates through blenderproc. -/
inductive TemplateAction where
  | copyFromRawCache
  | renderBlenderproc
deriving DecidableEq, Repr

/-- The branch taken by GigaPose/pipeline.py `main` on the parsed
`reuse_templates` value. -/
def templateStep (reuse : Bool) : TemplateAction :=
  if reuse then .copyFromRawCache else .renderBlenderproc

/-- Componentwise scaling of a quaternion. -/
def scaleQuat (c : ℝ) (q : Quat) : Quat :=
  ⟨c * q.x, c * q.y, c * q.z, c * q.w⟩

/-- The rotation shape of a session reply: the number of elements of its
`rotation` array (`none` when the server raised instead of replying). -/
def replyShape (r : Except Unit Reply) : Option ℕ :=
  r.toOption.map (fun x => x.rotation.length)

/-- The trace `M[0,0] + M[1,1] + M[2,2]` as computed by
`rotation_matrix_to_quaternion`. -/
def mat3trace (R : Mat3) : ℝ :=
  R.m00 + R.m11 + R.m22

/-- Diagonal 3x3 matrix, used for the Shepperd branch test inputs. -/
def mat3diag (a b c : ℝ) : Mat3 :=
  ⟨a, 0, 0, 0, b, 0, 0, 0, c⟩


/-! ## Helper lemmas -/

theorem parseAll_length : ∀ {ts : List String} {fs : List ℚ},
    parseAll ts = some fs → fs.length = ts.length := by
  intro ts
  induction ts with
  | nil =>
    intro fs h
    simp only [parseAll, Option.some.injEq] at h
    simp [← h]
  | cons t rest ih =>
    intro fs h
    cases hpf : pyFloat t with
    | none => simp [parseAll, hpf] at h
    | some v =>
      cases hpa : parseAll rest with
      | none => simp [parseAll, hpf, hpa] at h
      | some vs =>
        simp only [parseAll, hpf, hpa, Option.some.injEq] at h
        simp [← h, ih hpa]

theorem parseAll_eval : ∀ {ts : List String} {ps : List FloatTok},
    ts.map pyFloatParse = ps.map some → parseAll ts = some (ps.map FloatTok.val) := by
  intro ts
  induction ts with
  | nil =>
    intro ps h
    cases ps with
    | nil => rfl
    | cons p ps => simp at h
  | cons t rest ih =>
    intro ps h
    cases ps with
    | nil => simp at h
    | cons p ps =>
      simp only [List.map, List.cons.injEq] at h
      simp [parseAll, pyFloat, h.1, ih h.2]

theorem reshape3x3_eq_none {fs : List ℚ} (h : fs.length ≠ 9) :
    reshape3x3 fs = none := by
  rcases fs with _ | ⟨a0, _ | ⟨a1, _ | ⟨a2, _ | ⟨a3, _ | ⟨a4, _ | ⟨a5, _ | ⟨a6, _ |
    ⟨a7, _ | ⟨a8, _ | ⟨a9, tl⟩⟩⟩⟩⟩⟩⟩⟩⟩⟩ <;> first | rfl | simp at h

theorem argmaxAux_spec : ∀ (l : List ℝ) (k b : ℕ) (bv : ℝ),
    (argmaxAux l k b bv = b ∧ ∀ j u, l.get? j = some u → u ≤ bv) ∨
    (∃ j m, argmaxAux l k b bv = k + j ∧ l.get? j = some m ∧ bv < m ∧
      (∀ i u, l.get? i = some u → u ≤ m) ∧
      (∀ i u, i < j → l.get? i = some u → u < m)) := by
  intro l
  induction l with
  | nil =>
    intro k b bv
    left
    refine ⟨rfl, ?_⟩
    intro j u h
    simp at h
  | cons v rest ih =>
    intro k b bv
    by_cases hv : bv < v
    · have hstep : argmaxAux (v :: rest) k b bv = argmaxAux rest (k + 1) k v := by
        simp [argmaxAux, hv]
      rcases ih (k + 1) k v with ⟨heq, hmax⟩ | ⟨j, m, heq, hget, hlt, hmax, hstrict⟩
      · right
        refine ⟨0, v, by simp [hstep, heq], rfl, hv, ?_, ?_⟩
        · intro i u hu
          cases i with
          | zero => simp at hu; simp [hu]
          | succ i => exact hmax i u (by simpa using hu)
        · intro i u hi
          omega
      · right
        refine ⟨j + 1, m, by simp [hstep, heq]; omega, by simpa using hget,
          lt_trans hv hlt, ?_, ?_⟩
        · intro i u hu
          cases i with
          | zero => simp at hu; exact hu ▸ le_of_lt hlt
          | succ i => exact hmax i u (by simpa using hu)
        · intro i u hi hu
          cases i with
          | zero => simp at hu; exact hu ▸ hlt
          | succ i => exact hstrict i u (by omega) (by simpa using hu)
    · have hstep : argmaxAux (v :: rest) k b bv = argmaxAux rest (k + 1) b bv := by
        simp [argmaxAux, hv]
      rcases ih (k + 1) b bv with ⟨heq, hmax⟩ | ⟨j, m, heq, hget, hlt, hmax, hstrict⟩
      · left
        refine ⟨by simp [hstep, heq], ?_⟩
        intro i u hu
        cases i with
        | zero => simp at hu; exact hu ▸ le_of_not_lt hv
        | succ i => exact hmax i u (by simpa using hu)
      · right
        refine ⟨j + 1, m, by simp [hstep, heq]; omega, by simpa using hget, hlt, ?_, ?_⟩
        · intro i u hu
          cases i with
          | zero =>
            simp at hu
            exact hu ▸ le_of_lt (lt_of_le_of_lt (le_of_not_lt hv) hlt)
          | succ i => exact hmax i u (by simpa using hu)
        · intro i u hi hu
          cases i with
          | zero => simp at hu; exact hu ▸ lt_of_le_of_lt (le_of_not_lt hv) hlt
          | succ i => exact hstrict i u (by omega) (by simpa using hu)

theorem argmaxIdx_spec (l : List ℝ) (i : ℕ) (h : argmaxIdx l = some i) :
    ∃ m, l.get? i = some m ∧ (∀ j u, l.get? j = some u → u ≤ m) ∧
      (∀ j u, j < i → l.get? j = some u → u < m) := by
  cases l with
  | nil => simp [argmaxIdx] at h
  | cons v rest =>
    have h' : argmaxAux rest 1 0 v = i := by simpa [argmaxIdx] using h
    rcases argmaxAux_spec rest 1 0 v with ⟨heq, hmax⟩ | ⟨j, m, heq, hget, hlt, hmax, hstrict⟩
    · refine ⟨v, ?_, ?_, ?_⟩
      · rw [← h', heq]
        rfl
      · intro j u hu
        cases j with
        | zero => simp at hu; simp [hu]
        | succ j => exact hmax j u (by simpa using hu)
      · intro j u hj hu
        rw [← h', heq] at hj
        omega
    · refine ⟨m, ?_, ?_, ?_⟩
      · rw [← h', heq, Nat.add_comm 1 j]
        simpa using hget
      · intro j u hu
        cases j with
        | zero => simp at hu; exact hu ▸ le_of_lt hlt
        | succ j => exact hmax j u (by simpa using hu)
      · intro j u hj hu
        rw [← h', heq] at hj
        cases j with
        | zero => simp at hu; exact hu ▸ hlt
        | succ j => exact hstrict j u (by omega) (by simpa using hu)

theorem quat_to_rotm_mk_norm_one (x y z w : ℝ)
    (h : x * x + y * y + z * z + w * w = 1) :
    quat_to_rotm ⟨x, y, z, w⟩ =
      some [1 - 2 * (y * y + z * z), 2 * (x * y - w * z), 2 * (x * z + w * y),
            2 * (x * y + w * z), 1 - 2 * (x * x + z * z), 2 * (y * z - w * x),
            2 * (x * z - w * y), 2 * (y * z + w * x), 1 - 2 * (x * x + y * y)] := by
  simp only [quat_to_rotm]
  rw [h, Real.sqrt_one]
  norm_num

theorem quat_to_rotm_mk_norm_one_neg (x y z w : ℝ)
    (h : x * x + y * y + z * z + w * w = 1) :
    quat_to_rotm ⟨-x, -y, -z, -w⟩ =
      some [1 - 2 * (y * y + z * z), 2 * (x * y - w * z), 2 * (x * z + w * y),
            2 * (x * y + w * z), 1 - 2 * (x * x + z * z), 2 * (y * z - w * x),
            2 * (x * z - w * y), 2 * (y * z + w * x), 1 - 2 * (x * x + y * y)] := by
  rw [quat_to_rotm_mk_norm_one (-x) (-y) (-z) (-w) (by linear_combination h)]
  simp only [Option.some.injEq, List.cons.injEq, and_true]
  refine ⟨by ring, by ring, by ring, by ring, by ring, by ring, by ring, by ring, by ring⟩

theorem quat_to_rotm_identity :
    quat_to_rotm ⟨0, 0, 0, 1⟩ = some [1, 0, 0, 0, 1, 0, 0, 0, 1] := by
  rw [quat_to_rotm_mk_norm_one 0 0 0 1 (by norm_num)]
  norm_num

theorem quat_to_rotm_length {q : Quat} {l : List ℝ}
    (h : quat_to_rotm q = some l) : l.length = 9 := by
  simp only [quat_to_rotm] at h
  by_cases h0 : Real.sqrt (q.x * q.x + q.y * q.y + q.z * q.z + q.w * q.w) = 0
  · simp [h0] at h
  · rw [if_neg h0] at h
    simp only [Option.some.injEq] at h
    simp [← h]

/-! ## Claim theorems -/

/-- Claim C2: for every valid 3x3 rotation matrix R (the image of a unit
quaternion, which is exactly SO(3)), `quat_to_rotm` applied to
`rotation_matrix_to_quaternion R` reconstructs R exactly; the quaternion sign
ambiguity (q vs -q) cancels in the expansion. -/
theorem C2_quat_matrix_left_inverse (R : Mat3) (h : IsRotationMatrix R) :
    quat_to_rotm (rotation_matrix_to_quaternion R) = some R.toList := by
  obtain ⟨q, hq, hR⟩ := h
  obtain ⟨x, y, z, w⟩ := q
  have hq' : x * x + y * y + z * z + w * w = 1 := hq
  have hR' : quat_to_rotm ⟨x, y, z, w⟩ = some R.toList := hR
  rw [quat_to_rotm_mk_norm_one x y z w hq'] at hR'
  have hL : R.toList =
      [1 - 2 * (y * y + z * z), 2 * (x * y - w * z), 2 * (x * z + w * y),
       2 * (x * y + w * z), 1 - 2 * (x * x + z * z), 2 * (y * z - w * x),
       2 * (x * z - w * y), 2 * (y * z + w * x), 1 - 2 * (x * x + y * y)] :=
    (Option.some.inj hR').symm
  have hE := hL
  simp only [Mat3.toList, List.cons.injEq, and_true] at hE
  obtain ⟨h00, h01, h02, h10, h11, h12, h20, h21, h22⟩ := hE
  by_cases ht : R.m00 + R.m11 + R.m22 > 0
  · have h4w : R.m00 + R.m11 + R.m22 + 1 = (2 * w) ^ 2 := by
      rw [h00, h11, h22]
      linear_combination (-4 : ℝ) * hq'
    have hw2 : (0 : ℝ) < w * w := by nlinarith [ht, h4w]
    have hw0 : w ≠ 0 := by
      intro h0
      rw [h0] at hw2
      simp at hw2
    rcases lt_or_gt_of_ne hw0 with hneg | hpos
    · have hs : Real.sqrt (R.m00 + R.m11 + R.m22 + 1) = -(2 * w) := by
        rw [h4w, show (2 * w) ^ 2 = (-(2 * w)) ^ 2 by ring,
          Real.sqrt_sq (by linarith)]
      have hquat : rotation_matrix_to_quaternion R = ⟨-x, -y, -z, -w⟩ := by
        simp only [rotation_matrix_to_quaternion]
        rw [if_pos ht, hs, h21, h12, h02, h20, h10, h01]
        simp only [Quat.mk.injEq]
        refine ⟨?_, ?_, ?_, ?_⟩ <;> (first | (field_simp; ring) | ring)
      rw [hquat, quat_to_rotm_mk_norm_one_neg x y z w hq', hL]
    · have hs : Real.sqrt (R.m00 + R.m11 + R.m22 + 1) = 2 * w := by
        rw [h4w, Real.sqrt_sq (by linarith)]
      have hquat : rotation_matrix_to_quaternion R = ⟨x, y, z, w⟩ := by
        simp only [rotation_matrix_to_quaternion]
        rw [if_pos ht, hs, h21, h12, h02, h20, h10, h01]
        simp only [Quat.mk.injEq]
        refine ⟨?_, ?_, ?_, ?_⟩ <;> (first | (field_simp; ring) | ring)
      rw [hquat, quat_to_rotm_mk_norm_one x y z w hq', hL]
  · by_cases hx : R.m00 > R.m11 ∧ R.m00 > R.m22
    · have h4x : 1 + R.m00 - R.m11 - R.m22 = (2 * x) ^ 2 := by
        rw [h00, h11, h22]
        ring
      have hxy : y * y < x * x := by
        have h1 := hx.1
        rw [h00, h11] at h1
        nlinarith
      have hx2 : (0 : ℝ) < x * x := by nlinarith [mul_self_nonneg y]
      have hx0 : x ≠ 0 := by
        intro h0
        rw [h0] at hx2
        simp at hx2
      rcases lt_or_gt_of_ne hx0 with hneg | hpos
      · have hs : Real.sqrt (1 + R.m00 - R.m11 - R.m22) = -(2 * x) := by
          rw [h4x, show (2 * x) ^ 2 = (-(2 * x)) ^ 2 by ring,
            Real.sqrt_sq (by linarith)]
        have hquat : rotation_matrix_to_quaternion R = ⟨-x, -y, -z, -w⟩ := by
          simp only [rotation_matrix_to_quaternion]
          rw [if_neg ht, if_pos hx, hs, h21, h12, h02, h20, h10, h01]
          simp only [Quat.mk.injEq]
          refine ⟨?_, ?_, ?_, ?_⟩ <;> (first | (field_simp; ring) | ring)
        rw [hquat, quat_to_rotm_mk_norm_one_neg x y z w hq', hL]
      · have hs : Real.sqrt (1 + R.m00 - R.m11 - R.m22) = 2 * x := by
          rw [h4x, Real.sqrt_sq (by linarith)]
        have hquat : rotation_matrix_to_quaternion R = ⟨x, y, z, w⟩ := by
          simp only [rotation_matrix_to_quaternion]
          rw [if_neg ht, if_pos hx, hs, h21, h12, h02, h20, h10, h01]
          simp only [Quat.mk.injEq]
          refine ⟨?_, ?_, ?_, ?_⟩ <;> (first | (field_simp; ring) | ring)
        rw [hquat, quat_to_rotm_mk_norm_one x y z w hq', hL]
    · by_cases hy : R.m11 > R.m22
      · have h4y : 1 + R.m11 - R.m00 - R.m22 = (2 * y) ^ 2 := by
          rw [h00, h11, h22]
          ring
        have hyz : z * z < y * y := by
          rw [h11, h22] at hy
          nlinarith
        have hy2 : (0 : ℝ) < y * y := by nlinarith [mul_self_nonneg z]
        have hy0 : y ≠ 0 := by
          intro h0
          rw [h0] at hy2
          simp at hy2
        rcases lt_or_gt_of_ne hy0 with hneg | hpos
        · have hs : Real.sqrt (1 + R.m11 - R.m00 - R.m22) = -(2 * y) := by
            rw [h4y, show (2 * y) ^ 2 = (-(2 * y)) ^ 2 by ring,
              Real.sqrt_sq (by linarith)]
          have hquat : rotation_matrix_to_quaternion R = ⟨-x, -y, -z, -w⟩ := by
            simp only [rotation_matrix_to_quaternion]
            rw [if_neg ht, if_neg hx, if_pos hy, hs, h21, h12, h02, h20, h10, h01]
            simp only [Quat.mk.injEq]
            refine ⟨?_, ?_, ?_, ?_⟩ <;> (first | (field_simp; ring) | ring)
          rw [hquat, quat_to_rotm_mk_norm_one_neg x y z w hq', hL]
        · have hs : Real.sqrt (1 + R.m11 - R.m00 - R.m22) = 2 * y := by
            rw [h4y, Real.sqrt_sq (by linarith)]
          have hquat : rotation_matrix_to_quaternion R = ⟨x, y, z, w⟩ := by
            simp only [rotation_matrix_to_quaternion]
            rw [if_neg ht, if_neg hx, if_pos hy, hs, h21, h12, h02, h20, h10, h01]
            simp only [Quat.mk.injEq]
            refine ⟨?_, ?_, ?_, ?_⟩ <;> (first | (field_simp; ring) | ring)
          rw [hquat, quat_to_rotm_mk_norm_one x y z w hq', hL]
      · have h4z : 1 + R.m22 - R.m00 - R.m11 = (2 * z) ^ 2 := by
          rw [h00, h11, h22]
          ring
        have hsum : 3 / 4 ≤ x * x + y * y + z * z := by
          have ht' : R.m00 + R.m11 + R.m22 ≤ 0 := le_of_not_lt ht
          rw [h00, h11, h22] at ht'
          linarith
        have hxle : x * x ≤ y * y ∨ x * x ≤ z * z := by
          by_contra hcon
          push_neg at hcon
          exact hx ⟨by rw [h00, h11]; linarith [hcon.1],
            by rw [h00, h22]; linarith [hcon.2]⟩
        have hyle : y * y ≤ z * z := by
          have hy' := le_of_not_lt hy
          rw [h11, h22] at hy'
          linarith
        have hz2 : (0 : ℝ) < z * z := by
          rcases hxle with hc | hc <;> linarith
        have hz0 : z ≠ 0 := by
          intro h0
          rw [h0] at hz2
          simp at hz2
        rcases lt_or_gt_of_ne hz0 with hneg | hpos
        · have hs : Real.sqrt (1 + R.m22 - R.m00 - R.m11) = -(2 * z) := by
            rw [h4z, show (2 * z) ^ 2 = (-(2 * z)) ^ 2 by ring,
              Real.sqrt_sq (by linarith)]
          have hquat : rotation_matrix_to_quaternion R = ⟨-x, -y, -z, -w⟩ := by
            simp only [rotation_matrix_to_quaternion]
            rw [if_neg ht, if_neg hx, if_neg hy, hs, h21, h12, h02, h20, h10, h01]
            simp only [Quat.mk.injEq]
            refine ⟨?_, ?_, ?_, ?_⟩ <;> (first | (field_simp; ring) | ring)
          rw [hquat, quat_to_rotm_mk_norm_one_neg x y z w hq', hL]
        · have hs : Real.sqrt (1 + R.m22 - R.m00 - R.m11) = 2 * z := by
            rw [h4z, Real.sqrt_sq (by linarith)]
          have hquat : rotation_matrix_to_quaternion R = ⟨x, y, z, w⟩ := by
            simp only [rotation_matrix_to_quaternion]
            rw [if_neg ht, if_neg hx, if_neg hy, hs, h21, h12, h02, h20, h10, h01]
            simp only [Quat.mk.injEq]
            refine ⟨?_, ?_, ?_, ?_⟩ <;> (first | (field_simp; ring) | ring)
          rw [hquat, quat_to_rotm_mk_norm_one x y z w hq', hL]

/-- Witness for C2: the identity matrix is a valid rotation matrix and the
round trip reconstructs it. -/
theorem C2_quat_matrix_left_inverse_witness :
    IsRotationMatrix ⟨1, 0, 0, 0, 1, 0, 0, 0, 1⟩ ∧
    quat_to_rotm (rotation_matrix_to_quaternion ⟨1, 0, 0, 0, 1, 0, 0, 0, 1⟩) =
      some (Mat3.toList ⟨1, 0, 0, 0, 1, 0, 0, 0, 1⟩) := by
  have hrot : IsRotationMatrix ⟨1, 0, 0, 0, 1, 0, 0, 0, 1⟩ := by
    refine ⟨⟨0, 0, 0, 1⟩, by norm_num, ?_⟩
    rw [quat_to_rotm_identity]
    simp [Mat3.toList]
  exact ⟨hrot, C2_quat_matrix_left_inverse _ hrot⟩

/-- Claim C7: `rotation_matrix_to_quaternion` takes the trace-positive branch
on the identity matrix and, for each 180-degree rotation about an axis, the
branch of the largest diagonal entry; in each case the output equals the
hand-computed quaternion for that branch. -/
theorem C7_shepperd_branch_outputs :
    (mat3trace (mat3diag 1 1 1) > 0 ∧
      rotation_matrix_to_quaternion (mat3diag 1 1 1) = ⟨0, 0, 0, 1⟩) ∧
    (¬ mat3trace (mat3diag 1 (-1) (-1)) > 0 ∧
      (mat3diag 1 (-1) (-1)).m00 > (mat3diag 1 (-1) (-1)).m11 ∧
      (mat3diag 1 (-1) (-1)).m00 > (mat3diag 1 (-1) (-1)).m22 ∧
      rotation_matrix_to_quaternion (mat3diag 1 (-1) (-1)) = ⟨1, 0, 0, 0⟩) ∧
    (¬ mat3trace (mat3diag (-1) 1 (-1)) > 0 ∧
      (mat3diag (-1) 1 (-1)).m11 > (mat3diag (-1) 1 (-1)).m00 ∧
      (mat3diag (-1) 1 (-1)).m11 > (mat3diag (-1) 1 (-1)).m22 ∧
      rotation_matrix_to_quaternion (mat3diag (-1) 1 (-1)) = ⟨0, 1, 0, 0⟩) ∧
    (¬ mat3trace (mat3diag (-1) (-1) 1) > 0 ∧
      (mat3diag (-1) (-1) 1).m22 > (mat3diag (-1) (-1) 1).m00 ∧
      (mat3diag (-1) (-1) 1).m22 > (mat3diag (-1) (-1) 1).m11 ∧
      rotation_matrix_to_quaternion (mat3diag (-1) (-1) 1) = ⟨0, 0, 1, 0⟩) := by
  have h4 : Real.sqrt 4 = 2 := by
    rw [show (4 : ℝ) = 2 ^ 2 by norm_num, Real.sqrt_sq (by norm_num : (0:ℝ) ≤ 2)]
  refine ⟨⟨?_, ?_⟩, ⟨?_, ?_, ?_, ?_⟩, ⟨?_, ?_, ?_, ?_⟩, ⟨?_, ?_, ?_, ?_⟩⟩ <;>
    norm_num [mat3trace, mat3diag, rotation_matrix_to_quaternion, h4, Quat.mk.injEq]

/-- Claim C5: when a pipeline stage's external command exits non-zero, the
run fails carrying the failing stage's name and captured exit code, and no
later stage is invoked (the result does not depend on the stages after the
failing one). -/
theorem C5_nonzero_exit_aborts (pre : List Stage) (s : Stage) (post : List Stage)
    (hpre : ∀ t ∈ pre, t.exit = 0) (hs : s.exit ≠ 0) :
    runPipeline (pre ++ s :: post) =
      .failed (pre.map Stage.name ++ [s.name]) s.name s.exit ∧
    ∀ post', runPipeline (pre ++ s :: post) = runPipeline (pre ++ s :: post') := by
  induction pre with
  | nil =>
    constructor
    · simp [runPipeline, hs]
    · intro post'
      simp [runPipeline, hs]
  | cons a rest ih =>
    have ha : a.exit = 0 := hpre a (by simp)
    have ih' := ih (fun t ht => hpre t (by simp [ht]))
    constructor
    · simp [runPipeline, ha, ih'.1]
    · intro post'
      simp [runPipeline, ha, ih'.1, (ih'.2 post').symm ▸ ih'.1]

/-- Witness for C5: in a three-stage run whose second stage exits with code
7, the run fails at stage 2 with code 7 and stage 3 is absent from the
invoked list. -/
theorem C5_nonzero_exit_aborts_witness :
    runPipeline [⟨"stage1", 0⟩, ⟨"stage2", 7⟩, ⟨"stage3", 0⟩] =
      .failed ["stage1", "stage2"] "stage2" 7 := by
  have h := C5_nonzero_exit_aborts [⟨"stage1", 0⟩] ⟨"stage2", 7⟩ [⟨"stage3", 0⟩]
    (by decide) (by decide)
  simpa using h.1

/-- Claim C10: the parsed `reuse_templates` flag is `True` for every argument
list (the option is `store_true` with `default=True`), so the blenderproc
template-rendering branch is unreachable and every run copies precomputed
assets from the raw cache. -/
theorem C10_reuse_templates_always_true (present : Bool) :
    reuseTemplatesParsed present = true ∧
    templateStep (reuseTemplatesParsed present) = .copyFromRawCache ∧
    templateStep (reuseTemplatesParsed present) ≠ .renderBlenderproc := by
  cases present <;> simp [reuseTemplatesParsed, parseStoreTrue, templateStep]

/-- Claim C6: `read_intrinsics_txt` tokenizes on whitespace, normalizes comma
decimal separators token-by-token, parses 9 floats and reshapes them
row-major (checked on the spec's example), and it fails for every input
whose token count is not 9. -/
theorem C6_read_intrinsics_contract :
    read_intrinsics_txt "525,0 0,0 320,0\n0,0 525,0 240,0\n0,0 0,0 1,0" =
      .ok [[525, 0, 320], [0, 525, 240], [0, 0, 1]] ∧
    ∀ s : String, (tokensOf s).length ≠ 9 →
      ∃ e, read_intrinsics_txt s = .error e := by
  constructor
  · have htok : ((tokensOf "525,0 0,0 320,0\n0,0 525,0 240,0\n0,0 0,0 1,0").map
        commaToDot).map pyFloatParse =
        ([⟨false, 525, 0, 1⟩, ⟨false, 0, 0, 1⟩, ⟨false, 320, 0, 1⟩,
          ⟨false, 0, 0, 1⟩, ⟨false, 525, 0, 1⟩, ⟨false, 240, 0, 1⟩,
          ⟨false, 0, 0, 1⟩, ⟨false, 0, 0, 1⟩, ⟨false, 1, 0, 1⟩] :
          List FloatTok).map some := by decide
    have hp := parseAll_eval htok
    simp only [read_intrinsics_txt]
    rw [hp]
    simp only [List.map]
    norm_num [FloatTok.val, reshape3x3]
  · intro s hlen
    cases hp : parseAll ((tokensOf s).map commaToDot) with
    | none => exact ⟨.badFloat, by simp [read_intrinsics_txt, hp]⟩
    | some fs =>
      have hfs : fs.length ≠ 9 := by
        rw [parseAll_length hp, List.length_map]
        exact hlen
      exact ⟨.badShape, by simp [read_intrinsics_txt, hp, reshape3x3_eq_none hfs]⟩

/-- Witness for C6: a three-token input is rejected. -/
theorem C6_read_intrinsics_contract_witness :
    (tokensOf "1 2 3").length ≠ 9 ∧
    ∃ e, read_intrinsics_txt "1 2 3" = .error e := by
  have h : (tokensOf "1 2 3").length ≠ 9 := by decide
  exact ⟨h, C6_read_intrinsics_contract.2 "1 2 3" h⟩

/-- Claim C8: GigaPose MULTI_HYPOTHESIS normalization picks the index of the
maximum score, first occurrence winning ties, and replies with the selected
4x4 pose's translation column and row-major rotation submatrix; on scores
[0.2, 0.9, 0.5] the selected index is 1. -/
theorem C8_best_hypothesis_selection :
    (∀ (l : List ℝ) (i : ℕ), argmaxIdx l = some i →
      ∃ m, l.get? i = some m ∧ (∀ j u, l.get? j = some u → u ≤ m) ∧
        (∀ j u, j < i → l.get? j = some u → u < m)) ∧
    (∀ (data : GPData) (i : ℕ) (bestMat : Mat4),
      argmaxIdx data.scores = some i → data.poses.get? i = some bestMat →
      gp_estimate_pose true (some data) =
        .ok ⟨bestMat.translation, bestMat.rotationFlat⟩) ∧
    argmaxIdx [0.2, 0.9, 0.5] = some 1 := by
  refine ⟨argmaxIdx_spec, ?_, ?_⟩
  · intro data i bestMat hidx hget
    rw [List.get?_eq_getElem?] at hget
    simp [gp_estimate_pose, hidx, hget]
  · have h1 : (0.2 : ℝ) < 0.9 := by norm_num
    have h2 : ¬ (0.9 : ℝ) < 0.5 := by norm_num
    simp [argmaxIdx, argmaxAux, h1, h2]

/-- Witness for C8: with scores [0.2, 0.9] the reply is built from the second
hypothesis matrix. -/
theorem C8_best_hypothesis_selection_witness :
    gp_estimate_pose true (some ⟨[⟨0, 0, 0, 0, 0, 0, 0, 0, 0, 0, 0, 0, 0, 0, 0, 0⟩,
        ⟨1, 0, 0, 4, 0, 1, 0, 5, 0, 0, 1, 6, 0, 0, 0, 1⟩], [0.2, 0.9]⟩) =
      .ok ⟨[4, 5, 6], [1, 0, 0, 0, 1, 0, 0, 0, 1]⟩ := by
  have hidx : argmaxIdx [(0.2 : ℝ), 0.9] = some 1 := by
    have h1 : (0.2 : ℝ) < 0.9 := by norm_num
    simp [argmaxIdx, argmaxAux, h1]
  have h := C8_best_hypothesis_selection.2.1
    ⟨[⟨0, 0, 0, 0, 0, 0, 0, 0, 0, 0, 0, 0, 0, 0, 0, 0⟩,
      ⟨1, 0, 0, 4, 0, 1, 0, 5, 0, 0, 1, 6, 0, 0, 0, 1⟩], [0.2, 0.9]⟩ 1
    ⟨1, 0, 0, 4, 0, 1, 0, 5, 0, 0, 1, 6, 0, 0, 0, 1⟩ hidx rfl
  simpa [Mat4.translation, Mat4.rotationFlat] using h

/-- Counterexample for C1: the OVE6D missing-result-file fallback is the
all-zero nine-element rotation, which is neither the identity quaternion nor
the identity rotation matrix. -/
theorem C1_counterexample :
    ov_estimate_pose true none =
      .ok ⟨[0, 0, 0], [0, 0, 0, 0, 0, 0, 0, 0, 0]⟩ ∧
    ([0, 0, 0, 0, 0, 0, 0, 0, 0] : List ℝ) ≠ [0, 0, 0, 1] ∧
    ([0, 0, 0, 0, 0, 0, 0, 0, 0] : List ℝ) ≠ [1, 0, 0, 0, 1, 0, 0, 0, 1] := by
  refine ⟨rfl, by norm_num, by norm_num⟩

/-- Amended C1: on the failure cases the normalizers detect, the reply is the
fallback identity pose, except OVE6D's missing-result-file case, which
replies with an all-zero nine-element rotation; undetected malformed content
raises instead of replying. -/
theorem C1_fallback_policy :
    (∀ csv, ov_estimate_pose false csv = .ok fallbackQuatReply) ∧
    ov_estimate_pose true none = .ok ⟨[0, 0, 0], [0, 0, 0, 0, 0, 0, 0, 0, 0]⟩ ∧
    ov_estimate_pose true (some []) = .ok fallbackQuatReply ∧
    (∀ (row : OVRow) rest, row.Rvals = none ∨ row.tvals = none →
      ov_estimate_pose true (some (row :: rest)) = .error ()) ∧
    (∀ npz, gp_estimate_pose false npz = .ok fallbackQuatReply) ∧
    gp_estimate_pose true none = .ok fallbackQuatReply ∧
    (∀ poses, gp_estimate_pose true (some ⟨poses, []⟩) = .error ()) ∧
    (∀ file ot, mp_estimate_pose false file ot = .ok fallbackQuatReply) ∧
    (∀ ot, mp_estimate_pose true none ot = .ok fallbackQuatReply) ∧
    (∀ (data : List MPEntry) ot,
      data.find? (fun d => d.label == "barbecue-sauce") = none →
      mp_estimate_pose true (some data) ot = .ok fallbackQuatReply) := by
  refine ⟨fun csv => rfl, rfl, rfl, ?_, fun npz => rfl, rfl, fun poses => rfl,
    fun file ot => rfl, fun ot => rfl, ?_⟩
  · intro row rest h
    rcases h with h | h
    · cases htv : row.tvals <;> simp [ov_estimate_pose, h, htv]
    · cases hrv : row.Rvals <;> simp [ov_estimate_pose, h, hrv]
  · intro data ot h
    simp [mp_estimate_pose, h]

/-- Witness for the amended C1: concrete fallback replies on a failed
pipeline and on a STRUCTURED artifact without the looked-up label. -/
theorem C1_fallback_policy_witness :
    ov_estimate_pose false none = .ok fallbackQuatReply ∧
    mp_estimate_pose true (some [⟨"crankcase", []⟩]) "crankcase" =
      .ok fallbackQuatReply := by
  obtain ⟨h1, -, -, -, -, -, -, -, -, h10⟩ := C1_fallback_policy
  exact ⟨h1 none, h10 [⟨"crankcase", []⟩] "crankcase" rfl⟩

theorem quat_to_rotm_zero : quat_to_rotm ⟨0, 0, 0, 0⟩ = none := by
  simp only [quat_to_rotm]
  norm_num

/-- Counterexample for C3: within the single GigaPose gateway, a fallback
reply after a failed session carries a 4-element rotation while a success
reply carries 9 elements, so the rotation shape is not fixed. -/
theorem C3_counterexample :
    replyShape (gp_estimate_pose false none) = some 4 ∧
    replyShape (gp_estimate_pose true
      (some ⟨[⟨1, 0, 0, 4, 0, 1, 0, 5, 0, 0, 1, 6, 0, 0, 0, 1⟩], [1]⟩)) = some 9 ∧
    (4 : ℕ) ≠ 9 := by
  refine ⟨rfl, rfl, by norm_num⟩

/-- Amended C3: the rotation shape varies response-to-response within each
gateway: pipeline-failure fallbacks carry 4 floats, success replies carry 9
floats (OVE6D echoes the artifact's parsed R token count, and its
missing-file fallback carries 9 zeros). -/
theorem C3_rotation_shape_varies :
    (∀ npz, replyShape (gp_estimate_pose false npz) = some 4) ∧
    replyShape (gp_estimate_pose true none) = some 4 ∧
    (∀ (data : GPData) (i : ℕ) (m : Mat4), argmaxIdx data.scores = some i →
      data.poses.get? i = some m →
      replyShape (gp_estimate_pose true (some data)) = some 9) ∧
    (∀ csv, replyShape (ov_estimate_pose false csv) = some 4) ∧
    replyShape (ov_estimate_pose true none) = some 9 ∧
    replyShape (ov_estimate_pose true (some [])) = some 4 ∧
    (∀ (row : OVRow) rest rv tv, row.Rvals = some rv → row.tvals = some tv →
      replyShape (ov_estimate_pose true (some (row :: rest))) = some rv.length) ∧
    (∀ file ot, replyShape (mp_estimate_pose false file ot) = some 4) ∧
    (∀ ot, replyShape (mp_estimate_pose true none ot) = some 4) ∧
    (∀ (data : List MPEntry) ot entry qx qy qz qw t0 t1 t2 rm,
      data.find? (fun d => d.label == "barbecue-sauce") = some entry →
      entry.two.get? 0 = some [qx, qy, qz, qw] →
      entry.two.get? 1 = some [t0, t1, t2] →
      quat_to_rotm ⟨qx, qy, qz, qw⟩ = some rm →
      replyShape (mp_estimate_pose true (some data) ot) = some 9) := by
  refine ⟨fun npz => rfl, rfl, ?_, fun csv => rfl, rfl, rfl, ?_, fun file ot => rfl,
    fun ot => rfl, ?_⟩
  · intro data i m hidx hget
    rw [List.get?_eq_getElem?] at hget
    simp [gp_estimate_pose, replyShape, Except.toOption, hidx, hget, Mat4.rotationFlat]
  · intro row rest rv tv hrv htv
    simp [ov_estimate_pose, replyShape, Except.toOption, hrv, htv]
  · intro data ot entry qx qy qz qw t0 t1 t2 rm hfind h0 h1 hrm
    rw [List.get?_eq_getElem?] at h0 h1
    simp [mp_estimate_pose, replyShape, Except.toOption, hfind, h0, h1, hrm,
      quat_to_rotm_length hrm]

/-- Witness for the amended C3: a 4-float fallback and a 9-float success
reply from the same gateways. -/
theorem C3_rotation_shape_varies_witness :
    replyShape (gp_estimate_pose false none) = some 4 ∧
    replyShape (ov_estimate_pose true
      (some [⟨some [1, 2, 3, 4, 5, 6, 7, 8, 9], some [1, 2, 3]⟩])) = some 9 := by
  obtain ⟨h1, -, -, -, -, -, h7, -, -, -⟩ := C3_rotation_shape_varies
  refine ⟨h1 none, ?_⟩
  have h := h7 ⟨some [1, 2, 3, 4, 5, 6, 7, 8, 9], some [1, 2, 3]⟩ []
    [1, 2, 3, 4, 5, 6, 7, 8, 9] [1, 2, 3] rfl rfl
  simpa using h

/-- Counterexample for C4: with a STRUCTURED artifact whose only record is
labelled with the requested key "crankcase", normalization replies with the
fallback (no lookup on the requested key happens); and a record labelled
"barbecue-sauce" is returned even though "crankcase" was requested. -/
theorem C4_counterexample :
    mp_estimate_pose true (some [⟨"crankcase", [[0, 0, 0, 1], [1, 2, 3]]⟩])
      "crankcase" = .ok fallbackQuatReply ∧
    mp_estimate_pose true (some [⟨"barbecue-sauce", [[0, 0, 0, 1], [1, 2, 3]]⟩])
      "crankcase" = .ok ⟨[1000, 2000, 3000], [1, 0, 0, 0, 1, 0, 0, 0, 1]⟩ ∧
    "barbecue-sauce" ≠ "crankcase" := by
  refine ⟨rfl, ?_, by decide⟩
  have hfind : List.find? (fun d => d.label == "barbecue-sauce")
      [(⟨"barbecue-sauce", [[0, 0, 0, 1], [1, 2, 3]]⟩ : MPEntry)] =
      some ⟨"barbecue-sauce", [[0, 0, 0, 1], [1, 2, 3]]⟩ := rfl
  simp [mp_estimate_pose, hfind, quat_to_rotm_identity]
  norm_num

/-- Amended C4: the lookup matches the fixed label "barbecue-sauce" and never
consults the session's objectType; absence of a "barbecue-sauce" record
yields the fallback pose. -/
theorem C4_fixed_label_selection :
    (∀ p file ot ot', mp_estimate_pose p file ot = mp_estimate_pose p file ot') ∧
    (∀ (data : List MPEntry) ot,
      data.find? (fun d => d.label == "barbecue-sauce") = none →
      mp_estimate_pose true (some data) ot = .ok fallbackQuatReply) ∧
    (∀ (data : List MPEntry) entry,
      data.find? (fun d => d.label == "barbecue-sauce") = some entry →
      entry.label = "barbecue-sauce") := by
  refine ⟨fun p file ot ot' => rfl, ?_, ?_⟩
  · intro data ot h
    simp [mp_estimate_pose, h]
  · intro data entry h
    have h2 := List.find?_some h
    simpa using h2

/-- Witness for the amended C4: the reply is independent of the requested
object type, and an artifact without the fixed label falls back. -/
theorem C4_fixed_label_selection_witness :
    mp_estimate_pose true (some []) "crankcase" =
      mp_estimate_pose true (some []) "brake" ∧
    mp_estimate_pose true (some []) "crankcase" = .ok fallbackQuatReply :=
  ⟨C4_fixed_label_selection.1 true (some []) "crankcase" "brake",
   C4_fixed_label_selection.2.1 [] "crankcase" rfl⟩

/-- Counterexample for C9: on the zero quaternion, `quat_to_rotm` raises a
ZeroDivisionError (modelled as `none`) instead of returning the identity
matrix. -/
theorem C9_counterexample :
    quat_to_rotm ⟨0, 0, 0, 0⟩ = none ∧
    quat_to_rotm ⟨0, 0, 0, 0⟩ ≠ some [1, 0, 0, 0, 1, 0, 0, 0, 1] := by
  refine ⟨quat_to_rotm_zero, ?_⟩
  rw [quat_to_rotm_zero]
  simp

/-- Amended C9: `quat_to_rotm` normalizes its input first (its value is
invariant under positive scaling of the quaternion), but the zero-norm
quaternion makes the normalization divide by zero and raise, rather than
being treated as an identity quaternion. -/
theorem C9_normalizes_but_zero_raises :
    (∀ (c : ℝ) (q : Quat), 0 < c →
      quat_to_rotm (scaleQuat c q) = quat_to_rotm q) ∧
    quat_to_rotm ⟨0, 0, 0, 0⟩ = none := by
  refine ⟨?_, quat_to_rotm_zero⟩
  intro c q hc
  have hC : c ≠ 0 := ne_of_gt hc
  simp only [quat_to_rotm, scaleQuat]
  have h1 : c * q.x * (c * q.x) + c * q.y * (c * q.y) + c * q.z * (c * q.z) +
      c * q.w * (c * q.w) =
      c ^ 2 * (q.x * q.x + q.y * q.y + q.z * q.z + q.w * q.w) := by ring
  rw [h1, Real.sqrt_mul (sq_nonneg c), Real.sqrt_sq hc.le]
  by_cases h0 : Real.sqrt (q.x * q.x + q.y * q.y + q.z * q.z + q.w * q.w) = 0
  · rw [h0, mul_zero]
    simp
  · rw [if_neg (mul_ne_zero hC h0), if_neg h0]
    simp only [mul_div_mul_left _ _ hC]

/-- Witness for the amended C9: scale invariance at a concrete quaternion and
the raising zero case. -/
theorem C9_normalizes_but_zero_raises_witness :
    quat_to_rotm (scaleQuat 2 ⟨0, 0, 0, 1⟩) = quat_to_rotm ⟨0, 0, 0, 1⟩ ∧
    quat_to_rotm ⟨0, 0, 0, 0⟩ = none :=
  ⟨C9_normalizes_but_zero_raises.1 2 ⟨0, 0, 0, 1⟩ (by norm_num),
   C9_normalizes_but_zero_raises.2⟩
